import Mathlib

/-!
Verification of the functional core of the solana-workbench main process
(src/main/main.ts): the keypair store, the cluster probe, the funding
operation, the validator log retrieval, and the IPC command dispatcher.

Modelling conventions:
* Filesystem bytes are `List Nat`; the keys directory is a `List Entry`
  in enumeration order.
* A thrown JavaScript error / rejected promise is `Except.error (e : JsError)`.
* Base58 rendering of a public key is modelled by `toString` on the raw
  public-key bytes (an injective printable encoding, which is all the code
  relies on).
* Network and subprocess effects are passed in as explicit outcome
  parameters; the trace of network calls issued is returned explicitly
  where a claim speaks about it.
-/

/-- A JavaScript error value (exception / promise rejection reason). -/
structure JsError where
  msg : String
deriving DecidableEq, Repr

/-- `web3.Keypair`: the 64 secret bytes; the public key is bytes 32..64
(ed25519 secret keys are seed plus public key). -/
structure Keypair where
  secretKey : List Nat
deriving DecidableEq, Repr

/-- The raw public-key bytes of a keypair: the last 32 bytes of the secret. -/
def publicKeyBytes (kp : Keypair) : List Nat :=
  kp.secretKey.drop 32

/-- `kp.publicKey.toString()`: the base58 rendering, modelled as an injective
printable encoding of the public-key bytes. -/
def pubKeyString (kp : Keypair) : String :=
  toString (publicKeyBytes kp)

/-- `web3.Keypair.fromSecretKey(data)`: accepts exactly 64-byte inputs
(the additional ed25519 sign/verify self-check always succeeds on keys
produced by `Keypair.generate`, and no claim depends on it, so it is not
modelled). -/
def fromSecretKey (data : List Nat) : Except JsError Keypair :=
  if data.length = 64 then Except.ok ⟨data⟩
  else Except.error ⟨"bad secret key size"⟩

/-- A directory entry of the keys directory: a regular file with contents,
or a non-regular entry (subdirectory). -/
inductive Entry where
  | file (name : String) (data : List Nat)
  | dir (name : String)
deriving DecidableEq, Repr

/-- The name under which an entry appears in the directory listing. -/
def entryName : Entry → String
  | Entry.file n _ => n
  | Entry.dir n => n

/-- `fs.promises.readdir`: the names of the entries, in enumeration order. -/
def readdir (d : List Entry) : List String :=
  d.map entryName

/-- `fs.readFileSync` inside the keys directory: the contents of the named
regular file; EISDIR on a directory entry, ENOENT when nothing is named so. -/
def readFileSync : List Entry → String → Except JsError (List Nat)
  | [], _ => Except.error ⟨"ENOENT"⟩
  | Entry.file n data :: rest, name =>
      if n == name then Except.ok data else readFileSync rest name
  | Entry.dir n :: rest, name =>
      if n == name then Except.error ⟨"EISDIR"⟩ else readFileSync rest name

/-- `fs.writeFileSync` inside the keys directory: truncates an existing
regular file or creates a new entry; EISDIR when the name is taken by a
directory. -/
def writeFileSync : List Entry → String → List Nat → Except JsError (List Entry)
  | [], name, data => Except.ok [Entry.file name data]
  | Entry.file n old :: rest, name, data =>
      if n == name then Except.ok (Entry.file name data :: rest)
      else
        match writeFileSync rest name data with
        | Except.error e => Except.error e
        | Except.ok rest2 => Except.ok (Entry.file n old :: rest2)
  | Entry.dir n :: rest, name, data =>
      if n == name then Except.error ⟨"EISDIR"⟩
      else
        match writeFileSync rest name data with
        | Except.error e => Except.error e
        | Except.ok rest2 => Except.ok (Entry.dir n :: rest2)

/-- Whether any entry (regular or not) has the given name. -/
def hasEntry : List Entry → String → Bool
  | [], _ => false
  | e :: rest, name => entryName e == name || hasEntry rest name

/-- Whether the named entry exists and is a regular file (the test the
source's `stat.isFile()` was meant to perform). -/
def isFileB : List Entry → String → Bool
  | [], _ => false
  | Entry.file n _ :: rest, name => n == name || isFileB rest name
  | Entry.dir n :: rest, name =>
      if n == name then false else isFileB rest name

/-- `localKeypair(pubKey)` from main.ts: read the file named by the public
identifier and reconstruct the keypair. -/
def localKeypair (d : List Entry) (pubKey : String) : Except JsError Keypair :=
  match readFileSync d pubKey with
  | Except.error e => Except.error e
  | Except.ok data => fromSecretKey data

/-- The sequential loading of each listed name as a keypair
(`readFileSync` then `fromSecretKey` per name; `Promise.all` rejects with
the first rejection, i.e. the first thrown error in map order). -/
def loadAll (d : List Entry) : List String → Except JsError (List Keypair)
  | [] => Except.ok []
  | name :: rest =>
      match readFileSync d name with
      | Except.error e => Except.error e
      | Except.ok data =>
          match fromSecretKey data with
          | Except.error e => Except.error e
          | Except.ok kp =>
              match loadAll d rest with
              | Except.error e => Except.error e
              | Except.ok kps => Except.ok (kp :: kps)

/-- `keypairs()` from main.ts.  NOTE, faithful to the source: the
`Array.prototype.filter` callback there is an `async` arrow function, so it
returns a Promise object, and every Promise is truthy — the filter therefore
keeps every entry regardless of `stat.isFile()`.  Modelled as a filter whose
predicate is constantly `true`. -/
def keypairs (d : List Entry) : Except JsError (List String) :=
  let keypairFiles := readdir d
  let kept := keypairFiles.filter (fun _ => true)
  match loadAll d kept with
  | Except.error e => Except.error e
  | Except.ok web3Keys => Except.ok (web3Keys.map pubKeyString)

/-- The listing as the specification describes it, for comparison with
`keypairs`: only the regular files are enumerated, non-regular entries are
silently excluded. -/
def keypairsSpec (d : List Entry) : Except JsError (List String) :=
  let kept := (readdir d).filter (fun name => isFileB d name)
  match loadAll d kept with
  | Except.error e => Except.error e
  | Except.ok web3Keys => Except.ok (web3Keys.map pubKeyString)

/-- `addKeypair()` from main.ts, parameterised by the freshly generated
keypair `kp`: write the secret bytes to the file named by the public
identifier, then re-list.  Returns the post-write directory next to the
source's return value (the refreshed listing). -/
def addKeypair (kp : Keypair) (d : List Entry) :
    Except JsError (List Entry × List String) :=
  match writeFileSync d (pubKeyString kp) kp.secretKey with
  | Except.error e => Except.error e
  | Except.ok d2 =>
      match keypairs d2 with
      | Except.error e => Except.error e
      | Except.ok allKeypairs => Except.ok (d2, allKeypairs)

/-- The `SolState` reply shape of the cluster probe. -/
structure SolState where
  running : Bool
  keyId : String
deriving DecidableEq, Repr

/-- `connectSOL()` from main.ts, parameterised by the outcome of the awaited
`connection.getEpochInfo()` status call (the fixed-URL `new web3.Connection`
constructor performs no network I/O and cannot fail).  Every thrown error is
caught inside the function, which then returns the initial
`running := false` record; on success `running` is set to `true`.  The
function is total: no error escapes to the caller. -/
def connectSOL (epochInfo : Except JsError Unit) : SolState :=
  match epochInfo with
  | Except.error _ => ⟨false, ""⟩
  | Except.ok _ => ⟨true, ""⟩

/-- Existence of the two store directories
(`~/.solana-workbench` and `~/.solana-workbench/keys`). -/
structure FsState where
  rootExists : Bool
  keysExists : Bool
deriving DecidableEq, Repr

/-- The startup directory initialisation of main.ts:
`if (!fs.existsSync(WORKBENCH_DIR_PATH)) { mkdirSync root; mkdirSync keys }`.
The guard tests only the root directory; when the root is absent both
directories are created (a physically reachable state never has `keys`
without its parent, so the unguarded `mkdirSync` calls succeed). -/
def ensureStoreInitialized (fs : FsState) : FsState :=
  if fs.rootExists then fs else ⟨true, true⟩

/-- A network call issued by the funding operation. -/
inductive NetCall where
  | requestAirdropC (pub : String) (lamports : Nat)
  | confirmTransactionC (sig : Nat)
deriving DecidableEq, Repr

def LAMPORTS_PER_SOL : Nat := 1000000000

/-- `airdropTokens(pubKey, sol)` from main.ts, parameterised by the outcomes
of the two awaited network calls.  Returns the result together with the
trace of network calls actually issued, in order.  The
`new web3.Connection(url)` constructor only builds a client object and
issues no network call, so it contributes nothing to the trace; the keypair
is loaded before the first network call. -/
def airdropTokens (d : List Entry) (pubKey : String) (sol : Nat)
    (reqOutcome : Except JsError Nat) (confOutcome : Except JsError Unit) :
    Except JsError Unit × List NetCall :=
  match localKeypair d pubKey with
  | Except.error e => (Except.error e, [])
  | Except.ok toKp =>
      let req := NetCall.requestAirdropC (pubKeyString toKp) (LAMPORTS_PER_SOL * sol)
      match reqOutcome with
      | Except.error e => (Except.error e, [req])
      | Except.ok sig =>
          match confOutcome with
          | Except.error e => (Except.error e, [req, NetCall.confirmTransactionC sig])
          | Except.ok _ => (Except.ok (), [req, NetCall.confirmTransactionC sig])

/-- Abstract syntax of the JavaScript regular-expression fragment the model
supports: literal characters, the any-character dot, concatenation,
alternation and Kleene star (with `+` and `?` desugared during parsing). -/
inductive Regex where
  | fail
  | eps
  | char (c : Char)
  | dot
  | seq (a b : Regex)
  | alt (a b : Regex)
  | star (a : Regex)
deriving DecidableEq, Repr

/-- Whether the regex accepts the empty string. -/
def nullable : Regex → Bool
  | Regex.fail => false
  | Regex.eps => true
  | Regex.char _ => false
  | Regex.dot => false
  | Regex.seq a b => nullable a && nullable b
  | Regex.alt a b => nullable a || nullable b
  | Regex.star _ => true

/-- Brzozowski derivative of a regex by one character.  (`dot` matches any
character here; JS `.` excludes the line terminator, but every string the
filter stage tests is a single line with no `\n` in it, so the two agree on
all inputs that occur.) -/
def derivC : Regex → Char → Regex
  | Regex.fail, _ => Regex.fail
  | Regex.eps, _ => Regex.fail
  | Regex.char c, x => if c == x then Regex.eps else Regex.fail
  | Regex.dot, _ => Regex.eps
  | Regex.seq a b, x =>
      if nullable a then Regex.alt (Regex.seq (derivC a x) b) (derivC b x)
      else Regex.seq (derivC a x) b
  | Regex.alt a b, x => Regex.alt (derivC a x) (derivC b x)
  | Regex.star a, x => Regex.seq (derivC a x) (Regex.star a)

/-- Whether some (possibly empty) leading segment of the character list
matches the regex. -/
def matchesPref (r : Regex) : List Char → Bool
  | [] => nullable r
  | c :: cs => nullable r || matchesPref (derivC r c) cs

/-- Whether the regex matches somewhere inside the character list
(at any start position) — the acceptance test of JS `String.match`. -/
def jsSearchL (r : Regex) : List Char → Bool
  | [] => nullable r
  | c :: cs => matchesPref r (c :: cs) || jsSearchL r cs

/-- `s.match(r)` viewed as a Boolean: the regex matches somewhere in `s`. -/
def jsSearch (r : Regex) (s : String) : Bool :=
  jsSearchL r s.data

/-- Characters that cannot stand as a bare literal atom in the supported
fragment. -/
def regexMeta : List Char :=
  ['|', '*', '+', '?', '(', ')', '[', ']', '{', '}', '^', '$', '\\']

mutual

/-- Parse an alternation (lowest precedence). -/
def parseAlt : Nat → List Char → Option (Regex × List Char)
  | 0, _ => none
  | fuel + 1, cs =>
      match parseSeq fuel cs with
      | none => none
      | some (r1, cs1) =>
          match cs1 with
          | '|' :: rest =>
              match parseAlt fuel rest with
              | none => none
              | some (r2, cs2) => some (Regex.alt r1 r2, cs2)
          | _ => some (r1, cs1)

/-- Parse a concatenation of items; empty at `)`/`|`/end. -/
def parseSeq : Nat → List Char → Option (Regex × List Char)
  | 0, _ => none
  | fuel + 1, cs =>
      match cs with
      | [] => some (Regex.eps, [])
      | ')' :: _ => some (Regex.eps, cs)
      | '|' :: _ => some (Regex.eps, cs)
      | _ =>
          match parseItem fuel cs with
          | none => none
          | some (r1, cs1) =>
              match parseSeq fuel cs1 with
              | none => none
              | some (r2, cs2) => some (Regex.seq r1 r2, cs2)

/-- Parse an atom followed by an optional quantifier. -/
def parseItem : Nat → List Char → Option (Regex × List Char)
  | 0, _ => none
  | fuel + 1, cs =>
      match parseAtom fuel cs with
      | none => none
      | some (a, cs1) =>
          match cs1 with
          | '*' :: rest => some (Regex.star a, rest)
          | '+' :: rest => some (Regex.seq a (Regex.star a), rest)
          | '?' :: rest => some (Regex.alt a Regex.eps, rest)
          | _ => some (a, cs1)

/-- Parse an atom: a group, the dot, or a literal character. -/
def parseAtom : Nat → List Char → Option (Regex × List Char)
  | 0, _ => none
  | fuel + 1, cs =>
      match cs with
      | '(' :: rest =>
          match parseAlt fuel rest with
          | none => none
          | some (r, cs1) =>
              match cs1 with
              | ')' :: cs2 => some (r, cs2)
              | _ => none
      | '.' :: rest => some (Regex.dot, rest)
      | c :: rest => if c ∈ regexMeta then none else some (Regex.char c, rest)
      | [] => none

end

/-- `new RegExp(pattern)` on the supported fragment: `none` models the
SyntaxError thrown on a pattern the fragment rejects. -/
def parseRegex (s : String) : Option Regex :=
  match parseAlt (3 * s.length + 3) s.data with
  | some (r, []) => some r
  | _ => none

/-- The settled output of `util.promisify(exec)`: the two captured streams. -/
structure ExecOut where
  stdout : String
  stderr : String
deriving DecidableEq, Repr

def MAX_TAIL_LINES : Nat := 10000

def MAX_DISPLAY_LINES : Nat := 30

/-- JS `String.prototype.split('\n')` over the character list: splitting
the empty string yields one empty piece, and each separator starts a new
piece. -/
def splitListOn (sep : Char) : List Char → List (List Char)
  | [] => [[]]
  | c :: rest =>
      let r := splitListOn sep rest
      if c == sep then [] :: r
      else
        match r with
        | [] => [[c]]
        | h :: t => (c :: h) :: t

/-- `stderr.split('\n')`. -/
def splitLines (s : String) : List String :=
  (splitListOn '\n' s.data).map (fun cs => String.mk cs)

/-- JS `Array.prototype.join('\n')`. -/
def joinLines : List String → String
  | [] => ""
  | [s] => s
  | s :: rest => s ++ "\n" ++ joinLines rest

/-- The filter stage of `validatorLogs`:
`stderr.split('\n').filter((s) => s.match(filter))`. -/
def matchingLines (r : Regex) (stderr : String) : List String :=
  (splitLines stderr).filter (fun s => jsSearch r s)

/-- The display stage of `validatorLogs`:
`lines.slice(Math.max(lines.length - MAX_DISPLAY_LINES, 1))`.
Note the source's lower bound is the literal `1`, not `0`. -/
def displayLines (r : Regex) (stderr : String) : List String :=
  (matchingLines r stderr).drop
    (max ((matchingLines r stderr).length - MAX_DISPLAY_LINES) 1)

/-- `validatorLogs(filter)` from main.ts, parameterised by the settled
output of the `docker logs --tail 10000 solana-test-validator` subprocess
(the `--tail` truncation and the 100MB `maxBuffer` happen inside that
subprocess call and are reflected in the `ExecOut` handed in).  The source
destructures only `stderr` from the exec result.  `none` models the
SyntaxError thrown by `String.match` on a pattern outside the supported
regular-expression fragment. -/
def validatorLogs (out : ExecOut) (filter : String) : Option String :=
  match parseRegex filter with
  | none => none
  | some r => some (joinLines (displayLines r out.stderr))

/-- Whether the character list `p` occurs at the head of `s`. -/
def startsWithB : List Char → List Char → Bool
  | [], _ => true
  | _ :: _, [] => false
  | p :: ps, c :: cs => p == c && startsWithB ps cs

/-- Whether the character list `p` occurs contiguously anywhere in `s`. -/
def occursInB : List Char → List Char → Bool
  | p, [] => startsWithB p []
  | p, c :: rest => startsWithB p (c :: rest) || occursInB p rest

/-- Literal-substring occurrence of `p` in `s`, the alternative reading of
the filter pattern that the regex semantics is contrasted with. -/
def hasSubstrB (p s : String) : Bool :=
  occursInB p.data s.data

/-- One reply sent over the IPC channel by a command handler. -/
inductive Reply where
  | initR (s : SolState)
  | runValidatorR
  | validatorLogsR (text : String)
  | keypairsR (ids : List String)
  | addKeypairR (ids : List String)
  | airdropSuccessR
  | anchorIdlR (idl : String)
deriving DecidableEq, Repr

/-- The number of replies an async handler emits given the outcome of the
awaited work: one on success, none when the rejection escapes. -/
def countOf {α : Type} : Except JsError α → Nat
  | Except.ok _ => 1
  | Except.error _ => 0

/-- The awaited work of the `validator-logs` handler: the exec call, then
`validatorLogs` itself (whose SyntaxError surfaces as a rejection). -/
def vlChain (execOut : Except JsError ExecOut) (filter : String) :
    Except JsError String :=
  match execOut with
  | Except.error e => Except.error e
  | Except.ok o =>
      match validatorLogs o filter with
      | none => Except.error ⟨"SyntaxError: invalid regular expression"⟩
      | some text => Except.ok text

/-- The awaited work of the `keypairs` handler: `readdir` (whose outcome is
the parameter) then the listing. -/
def kpChain (dirRead : Except JsError (List Entry)) :
    Except JsError (List String) :=
  match dirRead with
  | Except.error e => Except.error e
  | Except.ok d => keypairs d

/-- The awaited work of the `add-keypair` handler: `addKeypair()` followed
by a second `keypairs()` listing, exactly as the handler does. -/
def akChain (kp : Keypair) (dirRead : Except JsError (List Entry)) :
    Except JsError (List String) :=
  match dirRead with
  | Except.error e => Except.error e
  | Except.ok d =>
      match addKeypair kp d with
      | Except.error e => Except.error e
      | Except.ok (d2, _) => keypairs d2

/-- The awaited work of the `airdrop` handler. -/
def adChain (d : List Entry) (pubKey : String) (sol : Nat)
    (reqOutcome : Except JsError Nat) (confOutcome : Except JsError Unit) :
    Except JsError Unit :=
  (airdropTokens d pubKey sol reqOutcome confOutcome).1

/-- `ipcMain.on('init')`: awaits `connectSOL` (which is total) and replies
with the resulting state. -/
def onInit (epochInfo : Except JsError Unit) : List Reply :=
  [Reply.initR (connectSOL epochInfo)]

/-- `ipcMain.on('run-validator')`: `runValidator()` hands any launch error
to a logging callback and never throws into the handler, which then replies
with the empty acknowledgment. -/
def onRunValidator : List Reply :=
  [Reply.runValidatorR]

/-- `ipcMain.on('validator-logs')`: replies with the text on success; a
rejection of the awaited chain escapes the async handler before
`event.reply`, so no reply is sent. -/
def onValidatorLogs (execOut : Except JsError ExecOut) (filter : String) :
    List Reply :=
  match vlChain execOut filter with
  | Except.ok text => [Reply.validatorLogsR text]
  | Except.error _ => []

/-- `ipcMain.on('keypairs')`: replies with the listing on success; a
rejection escapes unanswered. -/
def onKeypairs (dirRead : Except JsError (List Entry)) : List Reply :=
  match kpChain dirRead with
  | Except.ok ids => [Reply.keypairsR ids]
  | Except.error _ => []

/-- `ipcMain.on('add-keypair')`: replies with the refreshed listing on
success; a rejection escapes unanswered. -/
def onAddKeypair (kp : Keypair) (dirRead : Except JsError (List Entry)) :
    List Reply :=
  match akChain kp dirRead with
  | Except.ok ids => [Reply.addKeypairR ids]
  | Except.error _ => []

/-- `ipcMain.on('airdrop')`: replies with the bare success message on
success; a rejection escapes unanswered. -/
def onAirdrop (d : List Entry) (pubKey : String) (sol : Nat)
    (reqOutcome : Except JsError Nat) (confOutcome : Except JsError Unit) :
    List Reply :=
  match adChain d pubKey sol reqOutcome confOutcome with
  | Except.ok _ => [Reply.airdropSuccessR]
  | Except.error _ => []

/-- `ipcMain.on('fetch-anchor-idl')`, parameterised by the combined
outcome of the `anchor idl fetch` exec and the `JSON.parse` of its stdout:
replies with the parsed data on success; a rejection escapes unanswered. -/
def onFetchAnchorIdl (idl : Except JsError String) : List Reply :=
  match idl with
  | Except.ok parsed => [Reply.anchorIdlR parsed]
  | Except.error _ => []

/-- Writing a file and reading it back under the same name yields exactly
the bytes written. -/
theorem writeFileSync_readFileSync (d : List Entry) (name : String)
    (data : List Nat) (d2 : List Entry)
    (h : writeFileSync d name data = Except.ok d2) :
    readFileSync d2 name = Except.ok data := by
  induction d generalizing d2 with
  | nil =>
    simp only [writeFileSync, Except.ok.injEq] at h
    subst h
    simp [readFileSync]
  | cons e rest ih =>
    cases e with
    | file n old =>
      by_cases hn : (n == name) = true
      · simp only [writeFileSync, hn, if_pos, Except.ok.injEq] at h
        subst h
        simp [readFileSync]
      · simp only [writeFileSync, hn] at h
        cases hw : writeFileSync rest name data with
        | error e => rw [hw] at h; simp at h
        | ok rest2 =>
          rw [hw] at h
          simp at h
          subst h
          simp only [readFileSync, hn]
          exact ih rest2 hw
    | dir n =>
      by_cases hn : (n == name) = true
      · simp [writeFileSync, hn] at h
      · simp only [writeFileSync, hn] at h
        cases hw : writeFileSync rest name data with
        | error e => rw [hw] at h; simp at h
        | ok rest2 =>
          rw [hw] at h
          simp at h
          subst h
          simp only [readFileSync, hn]
          exact ih rest2 hw

/-- Reading a name no entry carries fails with ENOENT. -/
theorem readFileSync_of_not_hasEntry (d : List Entry) (name : String)
    (h : hasEntry d name = false) :
    readFileSync d name = Except.error ⟨"ENOENT"⟩ := by
  induction d with
  | nil => rfl
  | cons e rest ih =>
    simp only [hasEntry, Bool.or_eq_false_iff] at h
    obtain ⟨h1, h2⟩ := h
    cases e with
    | file n dt =>
      simp only [entryName] at h1
      simp only [readFileSync, h1]
      exact ih h2
    | dir n =>
      simp only [entryName] at h1
      simp only [readFileSync, h1]
      exact ih h2




/-- Claim C5: `probe` never raises an error to its caller; on any failure of
the status call it returns `running := false`, on success `running := true`,
and `keyId` is the empty string in both cases.  Totality of `connectSOL` as
a Lean function is the no-raise guarantee: the source catches every thrown
error inside the function. -/
theorem c5_probe_total_and_keyId_empty :
    (∀ e : JsError, connectSOL (Except.error e) = ⟨false, ""⟩) ∧
    connectSOL (Except.ok ()) = ⟨true, ""⟩ ∧
    ∀ o : Except JsError Unit, (connectSOL o).keyId = "" := by
  refine ⟨fun e => rfl, rfl, fun o => ?_⟩
  cases o <;> rfl

/-- Claim C6, counterexample: from the state where the root directory exists
but the keys subdirectory is missing, initialisation repairs nothing — after
it runs, the two directories do NOT both exist, contradicting the claim that
for every starting state both exist afterwards. -/
theorem c6_missing_keys_not_repaired :
    ¬ ((ensureStoreInitialized ⟨true, false⟩).rootExists = true ∧
       (ensureStoreInitialized ⟨true, false⟩).keysExists = true) := by
  decide

/-- Claim C6, amended: initialisation is keyed on the root directory alone:
when the root is missing, both directories are created; when the root
exists, nothing happens (and that is not an error); consequently the
operation is idempotent, but a state with the root present and the keys
subdirectory absent is not repaired. -/
theorem c6_init_keyed_on_root_amended (fs : FsState) :
    (fs.rootExists = false → ensureStoreInitialized fs = ⟨true, true⟩) ∧
    (fs.rootExists = true → ensureStoreInitialized fs = fs) ∧
    ensureStoreInitialized (ensureStoreInitialized fs) =
      ensureStoreInitialized fs := by
  obtain ⟨r, k⟩ := fs
  cases r <;> simp [ensureStoreInitialized]

/-- Witness for the amended C6 theorem at a concrete starting state. -/
theorem c6_init_keyed_on_root_amended_witness :
    ensureStoreInitialized ⟨false, false⟩ = ⟨true, true⟩ :=
  (c6_init_keyed_on_root_amended ⟨false, false⟩).1 rfl

/-- The concrete keys directory for claim C2: one regular file holding a
valid 64-byte secret key, plus one subdirectory. -/
def c2Dir : List Entry :=
  [Entry.file "k" (List.range 64), Entry.dir "backups"]

/-- Claim C2, code bug: the subdirectory is NOT silently excluded — the
async filter predicate in the source is a Promise and hence always truthy,
so the subdirectory reaches `readFileSync`, which throws EISDIR and the
whole listing fails.  The spec-described listing (`keypairsSpec`) on the
same directory succeeds and returns exactly the identifier of the one
regular file. -/
theorem c2_keypairs_errors_on_subdirectory :
    keypairs c2Dir = Except.error ⟨"EISDIR"⟩ ∧
    keypairsSpec c2Dir = Except.ok [pubKeyString ⟨List.range 64⟩] := by
  constructor <;> rfl

/-- The concrete log stream for claim C4: 50 non-matching lines followed by
5 lines matching the filter "ERROR", most recent last. -/
def c4Stderr : String :=
  joinLines
    (List.replicate 50 "validator ok" ++
      ["ERROR one", "ERROR two", "ERROR three", "ERROR four", "ERROR five"])

/-- The regex the pattern "ERROR" parses to. -/
def c4Regex : Regex :=
  Regex.seq (Regex.char 'E')
    (Regex.seq (Regex.char 'R')
      (Regex.seq (Regex.char 'R')
        (Regex.seq (Regex.char 'O') (Regex.seq (Regex.char 'R') Regex.eps))))

/-- Claim C4, code bug: on a stream with exactly 5 matching and 50
non-matching lines, the reply holds only the LAST 4 matching lines, not all
5: the display stage slices from `Math.max(lines.length - 30, 1)` — lower
bound `1`, not `0` — which always drops the oldest matching line when at
most 30 lines match. -/
theorem c4_five_matching_lines_returns_four :
    parseRegex "ERROR" = some c4Regex ∧
    (matchingLines c4Regex c4Stderr).length = 5 ∧
    (displayLines c4Regex c4Stderr).length = 4 ∧
    validatorLogs ⟨"", c4Stderr⟩ "ERROR" =
      some "ERROR two\nERROR three\nERROR four\nERROR five" := by
  refine ⟨rfl, by decide, by decide, rfl⟩

/-- Claim C3: for every log stream and every filter pattern (in the
supported regular-expression fragment), `fetchLogs` returns at most 30
lines, and every returned line matches the supplied filter pattern. -/
theorem c3_fetchLogs_bounded_and_filtered (out : ExecOut) (pat : String)
    (r : Regex) (h : parseRegex pat = some r) :
    validatorLogs out pat =
      some (joinLines (displayLines r out.stderr)) ∧
    (displayLines r out.stderr).length ≤ MAX_DISPLAY_LINES ∧
    ∀ l ∈ displayLines r out.stderr, jsSearch r l = true := by
  refine ⟨by simp [validatorLogs, h], ?_, ?_⟩
  · simp only [displayLines, List.length_drop]
    have h1 : (matchingLines r out.stderr).length - MAX_DISPLAY_LINES ≤
        max ((matchingLines r out.stderr).length - MAX_DISPLAY_LINES) 1 :=
      le_max_left _ _
    have h2 := Nat.sub_le_sub_left h1 (matchingLines r out.stderr).length
    omega
  · intro l hl
    have h1 : l ∈ matchingLines r out.stderr := List.drop_subset _ _ hl
    exact (List.mem_filter.mp h1).2

/-- Witness for C3 at a concrete stream and pattern. -/
theorem c3_fetchLogs_bounded_and_filtered_witness :
    validatorLogs ⟨"", "E1\nE2"⟩ "E" =
      some (joinLines
        (displayLines (Regex.seq (Regex.char 'E') Regex.eps) "E1\nE2")) ∧
    (displayLines (Regex.seq (Regex.char 'E') Regex.eps) "E1\nE2").length ≤
      MAX_DISPLAY_LINES ∧
    ∀ l ∈ displayLines (Regex.seq (Regex.char 'E') Regex.eps) "E1\nE2",
      jsSearch (Regex.seq (Regex.char 'E') Regex.eps) l = true :=
  c3_fetchLogs_bounded_and_filtered ⟨"", "E1\nE2"⟩ "E"
    (Regex.seq (Regex.char 'E') Regex.eps) rfl

/-- Claim C7: round trip — for every keypair generated (any 64-byte secret,
the generation invariant), once `addKeypair` has stored it, `localKeypair`
on its public identifier succeeds and yields a keypair with exactly the
secret bytes that were written. -/
theorem c7_generate_load_roundtrip (kp : Keypair) (d d2 : List Entry)
    (ids : List String) (hlen : kp.secretKey.length = 64)
    (hadd : addKeypair kp d = Except.ok (d2, ids)) :
    localKeypair d2 (pubKeyString kp) = Except.ok kp := by
  cases hw : writeFileSync d (pubKeyString kp) kp.secretKey with
  | error e => simp [addKeypair, hw] at hadd
  | ok dw =>
    cases hk : keypairs dw with
    | error e => simp [addKeypair, hw, hk] at hadd
    | ok ids2 =>
      simp only [addKeypair, hw, hk, Except.ok.injEq, Prod.mk.injEq] at hadd
      obtain ⟨hd2, _⟩ := hadd
      subst hd2
      have hrd := writeFileSync_readFileSync d (pubKeyString kp)
        kp.secretKey dw hw
      simp [localKeypair, hrd, fromSecretKey, hlen]

/-- Witness for C7 at a concrete generated keypair and an empty store. -/
theorem c7_generate_load_roundtrip_witness :
    localKeypair [Entry.file (pubKeyString ⟨List.range 64⟩) (List.range 64)]
      (pubKeyString ⟨List.range 64⟩) = Except.ok ⟨List.range 64⟩ :=
  c7_generate_load_roundtrip ⟨List.range 64⟩ []
    [Entry.file (pubKeyString ⟨List.range 64⟩) (List.range 64)]
    [pubKeyString ⟨List.range 64⟩] rfl rfl

/-- Claim C8: `airdrop` against a public identifier with no entry in the
keys directory fails with the storage error (ENOENT) and issues no network
call at all — the trace of network calls is empty, so no credit request is
ever submitted. -/
theorem c8_airdrop_missing_key_no_network (d : List Entry) (pubKey : String)
    (sol : Nat) (reqOutcome : Except JsError Nat)
    (confOutcome : Except JsError Unit)
    (h : hasEntry d pubKey = false) :
    airdropTokens d pubKey sol reqOutcome confOutcome =
      (Except.error ⟨"ENOENT"⟩, []) := by
  have hr := readFileSync_of_not_hasEntry d pubKey h
  simp [airdropTokens, localKeypair, hr]

/-- Witness for C8 at an empty store. -/
theorem c8_airdrop_missing_key_no_network_witness :
    airdropTokens [] "A" 1 (Except.ok 0) (Except.ok ()) =
      (Except.error ⟨"ENOENT"⟩, []) :=
  c8_airdrop_missing_key_no_network [] "A" 1 (Except.ok 0) (Except.ok ()) rfl

/-- Claim C9: `fetchLogs` reads only the standard-error stream of the
subprocess: its result is unchanged under any change of `stdout`, and every
displayed line is a line of `stderr`. -/
theorem c9_logs_read_only_stderr (o1 o2 : ExecOut) (pat : String)
    (h : o1.stderr = o2.stderr) :
    validatorLogs o1 pat = validatorLogs o2 pat ∧
    ∀ r : Regex, parseRegex pat = some r →
      ∀ l ∈ displayLines r o1.stderr, l ∈ splitLines o1.stderr := by
  constructor
  · simp [validatorLogs, h]
  · intro r _ l hl
    have h1 : l ∈ matchingLines r o1.stderr := List.drop_subset _ _ hl
    exact (List.mem_filter.mp h1).1

/-- Witness for C9: two exec outputs differing only in stdout. -/
theorem c9_logs_read_only_stderr_witness :
    validatorLogs ⟨"stdout content that is ignored", "x\nxx"⟩ "x" =
      validatorLogs ⟨"", "x\nxx"⟩ "x" ∧
    ∀ r : Regex, parseRegex "x" = some r →
      ∀ l ∈ displayLines r (ExecOut.stderr ⟨"stdout content that is ignored", "x\nxx"⟩),
        l ∈ splitLines (ExecOut.stderr ⟨"stdout content that is ignored", "x\nxx"⟩) :=
  c9_logs_read_only_stderr ⟨"stdout content that is ignored", "x\nxx"⟩
    ⟨"", "x\nxx"⟩ "x" rfl

/-- Claim C10: the filter of `fetchLogs` has regular-expression semantics
(JS `String.match` with the pattern string compiled as a RegExp), not
literal-substring semantics: a line is kept exactly when the regex matches
somewhere in it, and regex metacharacters are significant in both
directions — the pattern "a.c" keeps the line "aYc" though it is not a
substring of it, and the pattern "a(b)" keeps nothing on lines equal to
"a(b)" though it is a literal substring of them. -/
theorem c10_filter_is_regex_semantics :
    (∀ (r : Regex) (stderr l : String),
        l ∈ matchingLines r stderr ↔
          l ∈ splitLines stderr ∧ jsSearch r l = true) ∧
    validatorLogs ⟨"", "aXc\naYc"⟩ "a.c" = some "aYc" ∧
    hasSubstrB "a.c" "aXc" = false ∧
    hasSubstrB "a.c" "aYc" = false ∧
    validatorLogs ⟨"", "a(b)\na(b)"⟩ "a(b)" = some "" ∧
    hasSubstrB "a(b)" "a(b)" = true := by
  refine ⟨?_, rfl, rfl, rfl, rfl, rfl⟩
  intro r stderr l
  simp [matchingLines, List.mem_filter]

/-- Claim C1, counterexample: when the component invoked by the
`validator-logs` handler fails (the exec call rejects, e.g. docker is not
running), the handler sends zero replies — not exactly one — because the
rejection escapes the uncaught async handler before `event.reply`. -/
theorem c1_unanswered_on_component_failure :
    (onValidatorLogs (Except.error ⟨"spawn docker ENOENT"⟩) "ERROR").length ≠ 1 := by
  decide

/-- Claim C1, amended: the `init` and `run-validator` handlers reply exactly
once regardless of component failure (`connectSOL` catches every failure
internally; validator launch errors go to a logging callback).  Each of the
other five handlers replies exactly once when its awaited work succeeds and
zero times when it fails: no handler catches component failures, so such a
request goes unanswered. -/
theorem c1_reply_counts_amended :
    (∀ epochInfo, (onInit epochInfo).length = 1) ∧
    onRunValidator.length = 1 ∧
    (∀ execOut filt,
      (onValidatorLogs execOut filt).length = countOf (vlChain execOut filt)) ∧
    (∀ dirRead, (onKeypairs dirRead).length = countOf (kpChain dirRead)) ∧
    (∀ kp dirRead,
      (onAddKeypair kp dirRead).length = countOf (akChain kp dirRead)) ∧
    (∀ d pubKey sol reqOutcome confOutcome,
      (onAirdrop d pubKey sol reqOutcome confOutcome).length =
        countOf (adChain d pubKey sol reqOutcome confOutcome)) ∧
    (∀ idl, (onFetchAnchorIdl idl).length = countOf idl) := by
  refine ⟨fun _ => rfl, rfl, ?_, ?_, ?_, ?_, ?_⟩
  · intro execOut filt
    cases h : vlChain execOut filt <;> simp [onValidatorLogs, h, countOf]
  · intro dirRead
    cases h : kpChain dirRead <;> simp [onKeypairs, h, countOf]
  · intro kp dirRead
    cases h : akChain kp dirRead <;> simp [onAddKeypair, h, countOf]
  · intro d pubKey sol reqOutcome confOutcome
    cases h : adChain d pubKey sol reqOutcome confOutcome <;>
      simp [onAirdrop, h, countOf]
  · intro idl
    cases idl <;> simp [onFetchAnchorIdl, countOf]
